import Mathlib

/-!
Shallow embedding of the Pacemaker DCM device-communication layer
(`dcm_py/dcm_app/services/comms_service.py` and
`dcm_py/dcm_app/models/settings.py`).

Modelling conventions:
* Python `int` fields are embedded as `Int` (unbounded), Python `float`
  fields as `Rat`.  All concrete values the claims exercise (multiples of
  0.1, small integers) are exactly representable as IEEE doubles, and on
  those values Python float arithmetic agrees with rational arithmetic.
* Python `round` (banker's rounding, round-half-to-even) is `pyRound`.
* `x & 0xFF` on a non-negative int is `x % 256` (`Int.emod`).
* `dict.get k default` on the literal lookup tables becomes an
  `Option`-valued table plus `Option.getD`.
* I/O effects are made explicit: the serial channel is a list of payloads
  actually written, the `uart_log.txt` file is a list of `LogEntry`, and a
  Python exception raised by the pyserial driver during a write is an
  oracle boolean `writeOk` passed to the function (the code catches the
  exception, so the embedded function is total and returns `Bool`).
* A raised-to-the-caller Python exception is `Except.error`.
-/

namespace Pacemaker

/-- Dataclass `PacemakerSettings` from `dcm_app/models/settings.py`, with its
field defaults.  Python `int` fields are `Int`, `float` fields are `Rat`,
`bool` fields are `Bool`. -/
structure PacemakerSettings where
  owner_username : String
  mode : String
  lower_rate_limit : Int := 60
  upper_rate_limit : Int := 120
  maximum_sensor_rate : Int := 120
  atrial_amplitude : Rat := 3.5
  atrial_pulse_width : Rat := 0.4
  ventricular_amplitude : Rat := 3.5
  ventricular_pulse_width : Rat := 0.4
  atrial_sensitivity : Rat := 0.75
  ventricular_sensitivity : Rat := 2.5
  ventricular_refractory_period : Int := 320
  atrial_refractory_period : Int := 250
  pvarp : Int := 250
  fixed_av_delay : Int := 150
  dynamic_av_delay_on : Bool := false
  min_dynamic_av_delay : Int := 50
  sensed_av_delay_offset : Int := 0
  pvarp_extension : Int := 0
  hysteresis_rate_limit : Int := 0
  rate_smoothing_percent : Int := 0
  atr_mode_on : Bool := false
  atr_duration : Int := 20
  atr_fallback_time : Int := 1
  ventricular_blanking : Int := 40
  activity_threshold : String := "Med"
  reaction_time : Int := 30
  response_factor : Int := 8
  recovery_time : Int := 5

/-- Constructor `PacemakerSettings.default(owner_username, mode)`: a record with the
dataclass defaults. -/
def PacemakerSettings.default (owner_username : String) (mode : String) :
    PacemakerSettings :=
  { owner_username := owner_username, mode := mode }

/-- Constant `CommsService.PACKET_LEN = 15`. -/
def PACKET_LEN : Nat := 15

/-- Constant `CommsService.SYNC_BYTE = 0x9`. -/
def SYNC_BYTE : Int := 0x9

/-- Table `CommsService.MODE_MAP` — mode string to small code. -/
def MODE_MAP (m : String) : Option Int :=
  if m = "AOO" then some 1
  else if m = "VOO" then some 2
  else if m = "AAI" then some 3
  else if m = "VVI" then some 4
  else if m = "AOOR" then some 5
  else if m = "VOOR" then some 6
  else if m = "AAIR" then some 7
  else if m = "VVIR" then some 8
  else if m = "DDD" then some 9
  else if m = "DDDR" then some 10
  else none

/-- Table `CommsService.MODE_MAP_INV` — the inverse dictionary comprehension
`{v: k for k, v in MODE_MAP.items()}`. -/
def MODE_MAP_INV (c : Int) : Option String :=
  if c = 1 then some "AOO"
  else if c = 2 then some "VOO"
  else if c = 3 then some "AAI"
  else if c = 4 then some "VVI"
  else if c = 5 then some "AOOR"
  else if c = 6 then some "VOOR"
  else if c = 7 then some "AAIR"
  else if c = 8 then some "VVIR"
  else if c = 9 then some "DDD"
  else if c = 10 then some "DDDR"
  else none

/-- Table `CommsService.ACTIVITY_THRESH_MAP` — activity-threshold string to code. -/
def ACTIVITY_THRESH_MAP (t : String) : Option Int :=
  if t = "V-Low" then some 0
  else if t = "Low" then some 1
  else if t = "Med-Low" then some 2
  else if t = "Med" then some 3
  else if t = "Med-High" then some 4
  else if t = "High" then some 5
  else if t = "V-High" then some 6
  else none

/-- Table `CommsService.ACTIVITY_THRESH_MAP_INV` — inverse of the above. -/
def ACTIVITY_THRESH_MAP_INV (c : Int) : Option String :=
  if c = 0 then some "V-Low"
  else if c = 1 then some "Low"
  else if c = 2 then some "Med-Low"
  else if c = 3 then some "Med"
  else if c = 4 then some "Med-High"
  else if c = 5 then some "High"
  else if c = 6 then some "V-High"
  else none

/-- Python built-in `round` on a rational value: round half to even
(banker's rounding), which is the IEEE-754 behaviour of Python's
`round(float)`. -/
def pyRound (q : Rat) : Int :=
  let f : Int := q.floor
  let r : Rat := q - (f : Rat)
  if r < 1/2 then f
  else if 1/2 < r then f + 1
  else if f % 2 = 0 then f else f + 1

/-- The clamp `max(0, min(255, x))` applied to every numeric wire field in
`_encode_settings_to_frame`. -/
def pyClampByte (z : Int) : Int := max 0 (min 255 z)

/-- Encoder `CommsService._encode_settings_to_frame` — map a `PacemakerSettings`
to the 15-byte frame, as a list of `Int`s (each `value & 0xFF`, i.e.
`% 256`; `struct.pack('B', v)` then stores that byte verbatim).
Python `round()` applied to an `int` field is the identity and is elided
on the `int`-typed fields (`arp`, `vrp`, `recovery`, `reaction`,
`resp_factor`), as is `int()` applied to an `int`. -/
def _encode_settings_to_frame (s : PacemakerSettings) : List Int :=
  let mode_code := (MODE_MAP s.mode).getD 0
  let lrl := pyClampByte s.lower_rate_limit
  let url := pyClampByte s.upper_rate_limit
  let msr := pyClampByte s.maximum_sensor_rate
  let aa := pyClampByte (pyRound (s.atrial_amplitude * 10))
  let va := pyClampByte (pyRound (s.ventricular_amplitude * 10))
  let apw := pyClampByte (pyRound s.atrial_pulse_width)
  let vpw := pyClampByte (pyRound s.ventricular_pulse_width)
  let arp := pyClampByte s.atrial_refractory_period
  let vrp := pyClampByte s.ventricular_refractory_period
  let recovery := pyClampByte s.recovery_time
  let reaction := pyClampByte s.reaction_time
  let resp_factor := pyClampByte s.response_factor
  let act_code := pyClampByte ((ACTIVITY_THRESH_MAP s.activity_threshold).getD 3)
  [ SYNC_BYTE % 256,
    mode_code % 256,
    lrl % 256,
    url % 256,
    aa % 256,
    apw % 256,
    va % 256,
    vpw % 256,
    arp % 256,
    vrp % 256,
    recovery % 256,
    reaction % 256,
    resp_factor % 256,
    act_code % 256,
    msr % 256 ]

/-- Decoder `CommsService._decode_frame_to_settings(mode, frame)` — map a 15-byte
frame back to a `PacemakerSettings`.  The `ValueError` raised on a wrong
length is `Except.error`; the non-fatal sync-byte diagnostic written by
`_log_text` is returned as the `List String` component.  The Python code
tuple-unpacks the frame after the length check; here the bytes are read
with `List.getD` under the same length guard. -/
def _decode_frame_to_settings (mode : String) (frame : List Int) :
    Except String (List String × PacemakerSettings) :=
  if frame.length ≠ PACKET_LEN then
    Except.error "Frame must be 15 bytes."
  else
    let b0 := frame.getD 0 0
    let b1 := frame.getD 1 0
    let b2 := frame.getD 2 0
    let b3 := frame.getD 3 0
    let b4 := frame.getD 4 0
    let b5 := frame.getD 5 0
    let b6 := frame.getD 6 0
    let b7 := frame.getD 7 0
    let b8 := frame.getD 8 0
    let b9 := frame.getD 9 0
    let b10 := frame.getD 10 0
    let b11 := frame.getD 11 0
    let b12 := frame.getD 12 0
    let b13 := frame.getD 13 0
    let b14 := frame.getD 14 0
    let warns :=
      if b0 ≠ SYNC_BYTE then
        ["[PARAM] Warning: unexpected sync byte, expected 0x9."]
      else []
    let decoded_mode := (MODE_MAP_INV b1).getD mode
    let s0 := PacemakerSettings.default "device" decoded_mode
    Except.ok (warns,
      { s0 with
        lower_rate_limit := b2
        upper_rate_limit := b3
        maximum_sensor_rate := b14
        atrial_amplitude := (b4 : Rat) / 10
        atrial_pulse_width := (b5 : Rat)
        ventricular_amplitude := (b6 : Rat) / 10
        ventricular_pulse_width := (b7 : Rat)
        atrial_refractory_period := b8
        ventricular_refractory_period := b9
        recovery_time := b10
        reaction_time := b11
        response_factor := b12
        activity_threshold := (ACTIVITY_THRESH_MAP_INV b13).getD "Med" })

/-- One line of the append-only `uart_log.txt` diagnostic log: either a
hex-dumped frame with its direction tag (`_log_frame`) or a free-form text
line (`_log_text`).  Timestamps and hex formatting are not modelled. -/
inductive LogEntry where
  | frame (direction : String) (data : List Int)
  | text (line : String)
deriving DecidableEq

/-- The mutable state of a `CommsService` instance that the send/write
paths touch.  `is_connected` collapses the Python property
`self._is_connected and self._ser is not None and self._ser.is_open` into
one boolean; `channel` is the sequence of payloads actually handed to
`self._ser.write` (the physical serial output); `log` is `uart_log.txt`;
`last_sent_settings` is `self._last_sent_settings`. -/
structure CommsService where
  is_connected : Bool
  log : List LogEntry
  channel : List (List Int)
  last_sent_settings : Option PacemakerSettings

/-- Method `CommsService.write_bytes(payload)`.  The oracle `writeOk` tells
whether the underlying `self._ser.write(payload)` call would raise an
exception (`writeOk = false`) or succeed; the Python code catches that
exception, so the embedded function is total and returns the boolean the
caller sees together with the updated state. -/
def write_bytes (st : CommsService) (writeOk : Bool) (payload : List Int) :
    Bool × CommsService :=
  if st.is_connected = false then
    (false, { st with log := st.log ++ [LogEntry.frame "TX-NC" payload] })
  else if writeOk then
    (true, { st with
      channel := st.channel ++ [payload],
      log := st.log ++ [LogEntry.frame "TX" payload] })
  else
    (false, { st with log := st.log ++
      [LogEntry.frame "TX-ERR" payload,
       LogEntry.text "[WRITE] Error writing to port."] })

/-- Method `CommsService.send_parameters(settings)`.  Records
`self._last_sent_settings = settings`, encodes the frame, logs it plus a
human-readable field summary, then: if not connected, logs the mock-send
note and returns normally; otherwise calls `write_bytes` and raises
`RuntimeError` (here `Except.error`) when it returns `False`.  The
trailing `self._ser.flush()` has no observable effect in this model and
is modelled as non-failing; the `print` to stdout is not modelled. -/
def send_parameters (st : CommsService) (writeOk : Bool)
    (settings : PacemakerSettings) : Except String Unit × CommsService :=
  let st1 : CommsService := { st with last_sent_settings := some settings }
  let frame := _encode_settings_to_frame settings
  let st2 : CommsService := { st1 with log := st1.log ++
    [LogEntry.frame "PARAM-TX" frame, LogEntry.text "    Fields: ..."] }
  if st2.is_connected = false then
    (Except.ok (), { st2 with log := st2.log ++
      [LogEntry.text "[PARAM] send_parameters called with no active serial connection (mock send only)."] })
  else
    let r := write_bytes st2 writeOk frame
    if r.1 then
      (Except.ok (), r.2)
    else
      (Except.error "Error writing parameters to serial port: write_bytes returned False.",
       { r.2 with log := r.2.log ++
         [LogEntry.text "[PARAM] Error writing parameters to serial port."] })

/-! ### Helper lemmas about the lookup tables and numeric helpers -/

/-- Batteries `Rat.floor` agrees with the `FloorRing` floor on `ℚ`. -/
lemma Rat.floor_eq_intFloor (q : Rat) : q.floor = ⌊q⌋ := rfl

/-- Every code in the mode table lies in `1..10`. -/
lemma MODE_MAP_range {m : String} {c : Int} (h : MODE_MAP m = some c) :
    1 ≤ c ∧ c ≤ 10 := by
  unfold MODE_MAP at h
  split_ifs at h <;> simp_all <;> omega

/-- The inverse mode table undoes the forward table. -/
lemma MODE_MAP_INV_left {m : String} {c : Int} (h : MODE_MAP m = some c) :
    MODE_MAP_INV c = some m := by
  unfold MODE_MAP at h
  split_ifs at h <;> simp_all <;> subst_vars <;> decide

/-- Codes outside `1..10` are not in the inverse mode table. -/
lemma MODE_MAP_INV_none {c : Int} (h : c < 1 ∨ 10 < c) :
    MODE_MAP_INV c = none := by
  unfold MODE_MAP_INV
  split_ifs <;> first | rfl | (exfalso; omega)

/-- Every code in the activity-threshold table lies in `0..6`. -/
lemma ACTIVITY_THRESH_MAP_range {t : String} {c : Int}
    (h : ACTIVITY_THRESH_MAP t = some c) : 0 ≤ c ∧ c ≤ 6 := by
  unfold ACTIVITY_THRESH_MAP at h
  split_ifs at h <;> simp_all <;> omega

/-- The inverse activity-threshold table undoes the forward table. -/
lemma ACTIVITY_THRESH_MAP_INV_left {t : String} {c : Int}
    (h : ACTIVITY_THRESH_MAP t = some c) :
    ACTIVITY_THRESH_MAP_INV c = some t := by
  unfold ACTIVITY_THRESH_MAP at h
  split_ifs at h <;> simp_all <;> subst_vars <;> decide

/-- Codes outside `0..6` are not in the inverse activity-threshold table. -/
lemma ACTIVITY_THRESH_MAP_INV_none {c : Int} (h : c < 0 ∨ 6 < c) :
    ACTIVITY_THRESH_MAP_INV c = none := by
  unfold ACTIVITY_THRESH_MAP_INV
  split_ifs <;> first | rfl | (exfalso; omega)

/-- Python `round` is the identity on integers. -/
lemma pyRound_intCast (k : Int) : pyRound (k : Rat) = k := by
  unfold pyRound
  simp [Rat.floor_eq_intFloor, Int.floor_intCast]

/-- The clamp is the identity on `[0, 255]`. -/
lemma pyClampByte_eq_self {z : Int} (h0 : 0 ≤ z) (h1 : z ≤ 255) :
    pyClampByte z = z := by
  unfold pyClampByte
  omega

/-- The clamp always lands in `[0, 255]`. -/
lemma pyClampByte_mem (z : Int) : 0 ≤ pyClampByte z ∧ pyClampByte z ≤ 255 := by
  unfold pyClampByte
  omega

/-- Python `round` is the identity on natural-number literals. -/
lemma pyRound_natCast (k : Nat) : pyRound (k : Rat) = k := by
  have h : ((k : Rat)) = (((k : Int)) : Rat) := by push_cast; ring
  rw [h, pyRound_intCast]

/-- Python `round` rounds down when the fractional part is below one
half. -/
lemma pyRound_eq_of_lt_half (q : Rat) (f : Int) (h1 : (f : Rat) ≤ q)
    (h2 : q < (f : Rat) + 1/2) : pyRound q = f := by
  have hf : ⌊q⌋ = f := by
    rw [Int.floor_eq_iff]
    exact ⟨h1, by linarith⟩
  simp only [pyRound, Rat.floor_eq_intFloor, hf]
  rw [if_pos (by linarith)]

/-- Evaluation `round(-5 * 10.0) = -50`. -/
lemma pyRound_neg_five_mul_ten : pyRound ((-5 : Rat) * 10) = -50 := by
  have h : ((-5 : Rat) * 10) = (((-50 : Int)) : Rat) := by norm_num
  rw [h, pyRound_intCast]

/-- Evaluation `round(1000 * 10.0) = 10000`. -/
lemma pyRound_thousand_mul_ten : pyRound ((1000 : Rat) * 10) = 10000 := by
  have h : ((1000 : Rat) * 10) = (((10000 : Int)) : Rat) := by norm_num
  rw [h, pyRound_intCast]

/-- Evaluation `round(-5.0) = -5`. -/
lemma pyRound_neg_five : pyRound (-5 : Rat) = -5 := by
  have h : ((-5 : Rat)) = (((-5 : Int)) : Rat) := by norm_num
  rw [h, pyRound_intCast]

/-- Evaluation `round(1000.0) = 1000`. -/
lemma pyRound_thousand : pyRound (1000 : Rat) = 1000 := by
  have h : ((1000 : Rat)) = (((1000 : Int)) : Rat) := by norm_num
  rw [h, pyRound_intCast]

/-! ### Claim theorems -/

/-- C4 — Frame shape: `_encode_settings_to_frame` returns exactly 15
bytes for every input settings record; `_decode_frame_to_settings` fails
with the length error for every input whose length is not 15 and never
fails when the input has exactly 15 bytes. -/
theorem C4_frame_shape :
    (∀ s : PacemakerSettings, (_encode_settings_to_frame s).length = 15) ∧
    (∀ (mode : String) (frame : List Int), frame.length ≠ 15 →
      _decode_frame_to_settings mode frame =
        Except.error "Frame must be 15 bytes.") ∧
    (∀ (mode : String) (frame : List Int), frame.length = 15 →
      ∃ p, _decode_frame_to_settings mode frame = Except.ok p) := by
  refine ⟨fun s => ?_, fun mode frame h => ?_, fun mode frame h => ?_⟩
  · simp [_encode_settings_to_frame]
  · simp [_decode_frame_to_settings, PACKET_LEN, h]
  · unfold _decode_frame_to_settings
    rw [if_neg (by simp [PACKET_LEN, h])]
    exact ⟨_, rfl⟩

/-- C4 witness: the length rules evaluated at an empty frame, a 15-byte
frame, and a concrete settings record. -/
theorem C4_frame_shape_witness :
    _decode_frame_to_settings "VVI" [] =
      Except.error "Frame must be 15 bytes." ∧
    (∃ p, _decode_frame_to_settings "VVI" (List.replicate 15 0) =
      Except.ok p) ∧
    (_encode_settings_to_frame (PacemakerSettings.default "u" "VVI")).length
      = 15 :=
  ⟨C4_frame_shape.2.1 "VVI" [] (by simp),
   C4_frame_shape.2.2 "VVI" (List.replicate 15 0) (by simp),
   C4_frame_shape.1 (PacemakerSettings.default "u" "VVI")⟩

/-- C9 — Encode depends only on the 14 wire-subset fields: two settings
records agreeing on mode, rate limits, amplitudes, pulse widths,
refractory periods, recovery/reaction/response/activity/max-sensor-rate
encode to identical frames whatever their other fields are. -/
theorem C9_encode_wire_subset_only (s1 s2 : PacemakerSettings)
    (h1 : s1.mode = s2.mode)
    (h2 : s1.lower_rate_limit = s2.lower_rate_limit)
    (h3 : s1.upper_rate_limit = s2.upper_rate_limit)
    (h4 : s1.atrial_amplitude = s2.atrial_amplitude)
    (h5 : s1.atrial_pulse_width = s2.atrial_pulse_width)
    (h6 : s1.ventricular_amplitude = s2.ventricular_amplitude)
    (h7 : s1.ventricular_pulse_width = s2.ventricular_pulse_width)
    (h8 : s1.atrial_refractory_period = s2.atrial_refractory_period)
    (h9 : s1.ventricular_refractory_period = s2.ventricular_refractory_period)
    (h10 : s1.recovery_time = s2.recovery_time)
    (h11 : s1.reaction_time = s2.reaction_time)
    (h12 : s1.response_factor = s2.response_factor)
    (h13 : s1.activity_threshold = s2.activity_threshold)
    (h14 : s1.maximum_sensor_rate = s2.maximum_sensor_rate) :
    _encode_settings_to_frame s1 = _encode_settings_to_frame s2 := by
  simp only [_encode_settings_to_frame,
    h1, h2, h3, h4, h5, h6, h7, h8, h9, h10, h11, h12, h13, h14]

/-- Two settings records with identical wire subsets but different
owner, sensitivities, PVARP, AV timing, hysteresis, rate smoothing, ATR
and ventricular blanking. -/
def wireTwinA : PacemakerSettings :=
  { owner_username := "alice", mode := "DDD" }

/-- The non-wire twin of `wireTwinA`. -/
def wireTwinB : PacemakerSettings :=
  { owner_username := "bob", mode := "DDD",
    atrial_sensitivity := 1, ventricular_sensitivity := 9,
    pvarp := 99, fixed_av_delay := 10, dynamic_av_delay_on := true,
    min_dynamic_av_delay := 77, sensed_av_delay_offset := -3,
    pvarp_extension := 5, hysteresis_rate_limit := 3,
    rate_smoothing_percent := 12, atr_mode_on := true,
    atr_duration := 11, atr_fallback_time := 2,
    ventricular_blanking := 7 }

/-- C9 witness: the two concrete twins encode identically. -/
theorem C9_encode_wire_subset_only_witness :
    _encode_settings_to_frame wireTwinA = _encode_settings_to_frame wireTwinB :=
  C9_encode_wire_subset_only wireTwinA wireTwinB
    rfl rfl rfl rfl rfl rfl rfl rfl rfl rfl rfl rfl rfl rfl

/-- C10 — Encoded-frame range invariant: for every settings record the
frame starts with the sync constant 9 = 0x09, its mode byte is in 0..10
and is 0 exactly when the mode string is not in the table, and its
activity-threshold byte is in 0..6 and is 3 (the "Med" code) when the
threshold string is not in the table. -/
theorem C10_frame_range_invariant (s : PacemakerSettings) :
    (_encode_settings_to_frame s).getD 0 0 = 9 ∧
    (0 ≤ (_encode_settings_to_frame s).getD 1 0 ∧
      (_encode_settings_to_frame s).getD 1 0 ≤ 10) ∧
    ((_encode_settings_to_frame s).getD 1 0 = 0 ↔ MODE_MAP s.mode = none) ∧
    (0 ≤ (_encode_settings_to_frame s).getD 13 0 ∧
      (_encode_settings_to_frame s).getD 13 0 ≤ 6) ∧
    (ACTIVITY_THRESH_MAP s.activity_threshold = none →
      (_encode_settings_to_frame s).getD 13 0 = 3) := by
  have hb1 : (_encode_settings_to_frame s).getD 1 0 =
      (MODE_MAP s.mode).getD 0 % 256 := by
    simp [_encode_settings_to_frame]
  have hb13 : (_encode_settings_to_frame s).getD 13 0 =
      pyClampByte ((ACTIVITY_THRESH_MAP s.activity_threshold).getD 3) % 256 := by
    simp [_encode_settings_to_frame]
  refine ⟨by simp [_encode_settings_to_frame, SYNC_BYTE], ?_, ?_, ?_, ?_⟩
  · rw [hb1]
    rcases hm : MODE_MAP s.mode with _ | c
    · simp
    · have := MODE_MAP_range hm
      simp only [Option.getD_some]
      omega
  · rw [hb1]
    rcases hm : MODE_MAP s.mode with _ | c
    · simp
    · have := MODE_MAP_range hm
      simp only [Option.getD_some]
      constructor
      · intro h; exfalso; omega
      · intro h; exact absurd h (by simp)
  · rw [hb13]
    rcases ha : ACTIVITY_THRESH_MAP s.activity_threshold with _ | c
    · simp [pyClampByte]
    · have := ACTIVITY_THRESH_MAP_range ha
      simp only [Option.getD_some]
      unfold pyClampByte
      omega
  · intro h
    rw [hb13, h]
    simp [pyClampByte]

/-- C10 witness: the invariant evaluated at a record whose mode and
threshold strings are outside the tables — the mode byte is 0 and the
threshold byte is 3. -/
theorem C10_frame_range_invariant_witness :
    (_encode_settings_to_frame
      { owner_username := "x", mode := "BOGUS",
        activity_threshold := "NOPE" }).getD 0 0 = 9 ∧
    (_encode_settings_to_frame
      { owner_username := "x", mode := "BOGUS",
        activity_threshold := "NOPE" }).getD 1 0 = 0 ∧
    (_encode_settings_to_frame
      { owner_username := "x", mode := "BOGUS",
        activity_threshold := "NOPE" }).getD 13 0 = 3 :=
  ⟨(C10_frame_range_invariant
      { owner_username := "x", mode := "BOGUS",
        activity_threshold := "NOPE" }).1,
   (C10_frame_range_invariant
      { owner_username := "x", mode := "BOGUS",
        activity_threshold := "NOPE" }).2.2.1.mpr (by decide),
   (C10_frame_range_invariant
      { owner_username := "x", mode := "BOGUS",
        activity_threshold := "NOPE" }).2.2.2.2 (by decide)⟩

/-- C3 — Clamping: every byte of every encoded frame lies in `[0, 255]`
(encode is total, so no exception is possible), and for each numeric
wire field a value of `-5` encodes as byte `0` and a value of `1000`
encodes as byte `255` at that field's offset. -/
theorem C3_clamping (s : PacemakerSettings) :
    (∀ b ∈ _encode_settings_to_frame s, 0 ≤ b ∧ b ≤ 255) ∧
    ((_encode_settings_to_frame { s with lower_rate_limit := -5 }).getD 2 0 = 0 ∧
     (_encode_settings_to_frame { s with lower_rate_limit := 1000 }).getD 2 0 = 255) ∧
    ((_encode_settings_to_frame { s with upper_rate_limit := -5 }).getD 3 0 = 0 ∧
     (_encode_settings_to_frame { s with upper_rate_limit := 1000 }).getD 3 0 = 255) ∧
    ((_encode_settings_to_frame { s with atrial_amplitude := -5 }).getD 4 0 = 0 ∧
     (_encode_settings_to_frame { s with atrial_amplitude := 1000 }).getD 4 0 = 255) ∧
    ((_encode_settings_to_frame { s with atrial_pulse_width := -5 }).getD 5 0 = 0 ∧
     (_encode_settings_to_frame { s with atrial_pulse_width := 1000 }).getD 5 0 = 255) ∧
    ((_encode_settings_to_frame { s with ventricular_amplitude := -5 }).getD 6 0 = 0 ∧
     (_encode_settings_to_frame { s with ventricular_amplitude := 1000 }).getD 6 0 = 255) ∧
    ((_encode_settings_to_frame { s with ventricular_pulse_width := -5 }).getD 7 0 = 0 ∧
     (_encode_settings_to_frame { s with ventricular_pulse_width := 1000 }).getD 7 0 = 255) ∧
    ((_encode_settings_to_frame { s with atrial_refractory_period := -5 }).getD 8 0 = 0 ∧
     (_encode_settings_to_frame { s with atrial_refractory_period := 1000 }).getD 8 0 = 255) ∧
    ((_encode_settings_to_frame { s with ventricular_refractory_period := -5 }).getD 9 0 = 0 ∧
     (_encode_settings_to_frame { s with ventricular_refractory_period := 1000 }).getD 9 0 = 255) ∧
    ((_encode_settings_to_frame { s with recovery_time := -5 }).getD 10 0 = 0 ∧
     (_encode_settings_to_frame { s with recovery_time := 1000 }).getD 10 0 = 255) ∧
    ((_encode_settings_to_frame { s with reaction_time := -5 }).getD 11 0 = 0 ∧
     (_encode_settings_to_frame { s with reaction_time := 1000 }).getD 11 0 = 255) ∧
    ((_encode_settings_to_frame { s with response_factor := -5 }).getD 12 0 = 0 ∧
     (_encode_settings_to_frame { s with response_factor := 1000 }).getD 12 0 = 255) ∧
    ((_encode_settings_to_frame { s with maximum_sensor_rate := -5 }).getD 14 0 = 0 ∧
     (_encode_settings_to_frame { s with maximum_sensor_rate := 1000 }).getD 14 0 = 255) := by
  constructor
  · intro b hb
    simp only [_encode_settings_to_frame, List.mem_cons,
      List.not_mem_nil, or_false] at hb
    rcases hb with rfl | rfl | rfl | rfl | rfl | rfl | rfl | rfl | rfl |
      rfl | rfl | rfl | rfl | rfl | rfl <;> omega
  · refine ⟨⟨?_, ?_⟩, ⟨?_, ?_⟩, ⟨?_, ?_⟩, ⟨?_, ?_⟩, ⟨?_, ?_⟩, ⟨?_, ?_⟩,
      ⟨?_, ?_⟩, ⟨?_, ?_⟩, ⟨?_, ?_⟩, ⟨?_, ?_⟩, ⟨?_, ?_⟩, ⟨?_, ?_⟩⟩ <;>
    · simp only [_encode_settings_to_frame, List.getD_cons_zero,
        List.getD_cons_succ, pyRound_neg_five_mul_ten,
        pyRound_thousand_mul_ten, pyRound_neg_five, pyRound_thousand]
      decide

/-- C3 witness: the clamping behaviour evaluated on a concrete record. -/
theorem C3_clamping_witness :
    (∀ b ∈ _encode_settings_to_frame wireTwinA, 0 ≤ b ∧ b ≤ 255) ∧
    (_encode_settings_to_frame
      { wireTwinA with lower_rate_limit := -5 }).getD 2 0 = 0 ∧
    (_encode_settings_to_frame
      { wireTwinA with lower_rate_limit := 1000 }).getD 2 0 = 255 :=
  ⟨(C3_clamping wireTwinA).1,
   (C3_clamping wireTwinA).2.1.1,
   (C3_clamping wireTwinA).2.1.2⟩

/-- C5 — Unknown-code fallback: decoding a 15-byte frame whose mode byte
is outside the table codes `1..10` (e.g. 99) yields the caller-supplied
fallback mode rather than failing, and a frame whose activity-threshold
byte is outside `0..6` (e.g. 99) yields the threshold `"Med"`. -/
theorem C5_unknown_code_fallback (frame : List Int) (fb : String)
    (hlen : frame.length = 15) :
    ((frame.getD 1 0 < 1 ∨ 10 < frame.getD 1 0) →
      ∃ warns d, _decode_frame_to_settings fb frame = Except.ok (warns, d) ∧
        d.mode = fb) ∧
    ((frame.getD 13 0 < 0 ∨ 6 < frame.getD 13 0) →
      ∃ warns d, _decode_frame_to_settings fb frame = Except.ok (warns, d) ∧
        d.activity_threshold = "Med") := by
  constructor
  · intro hout
    have hn := MODE_MAP_INV_none hout
    simp only [List.getD_eq_getElem?_getD] at hn
    unfold _decode_frame_to_settings
    rw [if_neg (by simp [PACKET_LEN, hlen])]
    refine ⟨_, _, rfl, ?_⟩
    simp [PacemakerSettings.default, hn]
  · intro hout
    have hn := ACTIVITY_THRESH_MAP_INV_none hout
    simp only [List.getD_eq_getElem?_getD] at hn
    unfold _decode_frame_to_settings
    rw [if_neg (by simp [PACKET_LEN, hlen])]
    refine ⟨_, _, rfl, ?_⟩
    simp [PacemakerSettings.default, hn]

/-- C5 witness: decoding the frame with mode byte 99 and threshold byte
99 gives the fallback mode `"VVI"` and the threshold `"Med"`. -/
theorem C5_unknown_code_fallback_witness :
    (∃ warns d,
      _decode_frame_to_settings "VVI"
        [9, 99, 0, 0, 0, 0, 0, 0, 0, 0, 0, 0, 0, 99, 0] =
        Except.ok (warns, d) ∧ d.mode = "VVI") ∧
    (∃ warns d,
      _decode_frame_to_settings "VVI"
        [9, 99, 0, 0, 0, 0, 0, 0, 0, 0, 0, 0, 0, 99, 0] =
        Except.ok (warns, d) ∧ d.activity_threshold = "Med") :=
  ⟨(C5_unknown_code_fallback
      [9, 99, 0, 0, 0, 0, 0, 0, 0, 0, 0, 0, 0, 99, 0] "VVI" (by simp)).1
      (by simp),
   (C5_unknown_code_fallback
      [9, 99, 0, 0, 0, 0, 0, 0, 0, 0, 0, 0, 0, 99, 0] "VVI" (by simp)).2
      (by simp)⟩

/-- C6 — Sync-byte tolerance: decoding a 15-byte frame whose first byte
differs from the sync constant does not fail: it returns a non-empty
diagnostic log and exactly the settings that the same frame with a
correct sync byte decodes to (the settings do not depend on byte 0). -/
theorem C6_sync_tolerance (b0 : Int) (rest : List Int) (fb : String)
    (hlen : rest.length = 14) (hb0 : b0 ≠ SYNC_BYTE) :
    ∃ warns d,
      _decode_frame_to_settings fb (b0 :: rest) = Except.ok (warns, d) ∧
      warns ≠ [] ∧
      _decode_frame_to_settings fb (SYNC_BYTE :: rest) = Except.ok ([], d) := by
  unfold _decode_frame_to_settings
  rw [if_neg (by simp [PACKET_LEN, hlen]), if_neg (by simp [PACKET_LEN, hlen])]
  simp only [List.getD_cons_zero, List.getD_cons_succ]
  rw [if_pos hb0, if_neg (by simp)]
  exact ⟨_, _, rfl, by simp, rfl⟩

/-- C6 witness: a frame starting with byte 0 decodes to the same
settings as the same frame starting with the sync byte 9. -/
theorem C6_sync_tolerance_witness :
    ∃ warns d,
      _decode_frame_to_settings "AOO"
        (0 :: List.replicate 14 0) = Except.ok (warns, d) ∧
      warns ≠ [] ∧
      _decode_frame_to_settings "AOO"
        (SYNC_BYTE :: List.replicate 14 0) = Except.ok ([], d) :=
  C6_sync_tolerance 0 (List.replicate 14 0) "AOO" (by simp)
    (by unfold SYNC_BYTE; omega)

/-- C7 — Mock-write contract: a disconnected `write_bytes` returns
`false`, writes nothing to the channel, and appends the would-have-sent
`TX-NC` log entry; a connected successful write returns `true`; an I/O
exception during a connected write surfaces as `false` with the error
logged (the embedded function is total: nothing is raised). -/
theorem C7_mock_write_contract (st : CommsService) (writeOk : Bool)
    (payload : List Int) :
    (st.is_connected = false →
      (write_bytes st writeOk payload).1 = false ∧
      (write_bytes st writeOk payload).2.channel = st.channel ∧
      (write_bytes st writeOk payload).2.log =
        st.log ++ [LogEntry.frame "TX-NC" payload]) ∧
    (st.is_connected = true → writeOk = true →
      (write_bytes st writeOk payload).1 = true) ∧
    (st.is_connected = true → writeOk = false →
      (write_bytes st writeOk payload).1 = false ∧
      (write_bytes st writeOk payload).2.channel = st.channel ∧
      (write_bytes st writeOk payload).2.log =
        st.log ++ [LogEntry.frame "TX-ERR" payload,
                   LogEntry.text "[WRITE] Error writing to port."]) := by
  refine ⟨fun hnc => ?_, fun hc hok => ?_, fun hc hok => ?_⟩
  · simp [write_bytes, hnc]
  · simp [write_bytes, hc, hok]
  · simp [write_bytes, hc, hok]

/-- C7 witness: the three branches evaluated on concrete states. -/
theorem C7_mock_write_contract_witness :
    ((write_bytes ⟨false, [], [], none⟩ true [1, 2]).1 = false ∧
     (write_bytes ⟨false, [], [], none⟩ true [1, 2]).2.channel = [] ∧
     (write_bytes ⟨false, [], [], none⟩ true [1, 2]).2.log =
       [] ++ [LogEntry.frame "TX-NC" [1, 2]]) ∧
    (write_bytes ⟨true, [], [], none⟩ true [1, 2]).1 = true ∧
    (write_bytes ⟨true, [], [], none⟩ false [1, 2]).1 = false :=
  ⟨(C7_mock_write_contract ⟨false, [], [], none⟩ true [1, 2]).1 rfl,
   (C7_mock_write_contract ⟨true, [], [], none⟩ true [1, 2]).2.1 rfl rfl,
   ((C7_mock_write_contract ⟨true, [], [], none⟩ false [1, 2]).2.2 rfl rfl).1⟩

/-- C8 — `send_parameters` always records the attempted settings as
`last_sent_settings`, whatever the outcome; a disconnected mock send
returns normally; a connected send whose write succeeds returns
normally; a connected send whose write fails raises (`Except.error`)
while the last-attempted settings are still updated. -/
theorem C8_send_records_last_attempted (st : CommsService) (writeOk : Bool)
    (settings : PacemakerSettings) :
    ((send_parameters st writeOk settings).2.last_sent_settings =
      some settings) ∧
    (st.is_connected = false →
      (send_parameters st writeOk settings).1 = Except.ok ()) ∧
    (st.is_connected = true → writeOk = true →
      (send_parameters st writeOk settings).1 = Except.ok ()) ∧
    (st.is_connected = true → writeOk = false →
      ∃ e, (send_parameters st writeOk settings).1 = Except.error e) := by
  refine ⟨?_, fun hnc => ?_, fun hc hok => ?_, fun hc hok => ?_⟩
  · rcases hc : st.is_connected with _ | _ <;>
      rcases hok : writeOk with _ | _ <;>
        simp [send_parameters, write_bytes, hc, hok]
  · simp [send_parameters, hnc]
  · simp [send_parameters, write_bytes, hc, hok]
  · simp [send_parameters, write_bytes, hc, hok]

/-- C8 witness: the send paths evaluated on concrete states. -/
theorem C8_send_records_last_attempted_witness :
    ((send_parameters ⟨false, [], [], none⟩ true wireTwinA).2.last_sent_settings
      = some wireTwinA) ∧
    ((send_parameters ⟨false, [], [], none⟩ true wireTwinA).1 = Except.ok ()) ∧
    ((send_parameters ⟨true, [], [], none⟩ false wireTwinA).2.last_sent_settings
      = some wireTwinA) ∧
    (∃ e, (send_parameters ⟨true, [], [], none⟩ false wireTwinA).1 =
      Except.error e) :=
  ⟨(C8_send_records_last_attempted ⟨false, [], [], none⟩ true wireTwinA).1,
   (C8_send_records_last_attempted ⟨false, [], [], none⟩ true wireTwinA).2.1 rfl,
   (C8_send_records_last_attempted ⟨true, [], [], none⟩ false wireTwinA).1,
   (C8_send_records_last_attempted ⟨true, [], [], none⟩ false wireTwinA).2.2.2
     rfl rfl⟩

/-- The Parameter Set of the C2 scenario (all values as the claim lists
them; they coincide with the dataclass defaults). -/
def c2Settings : PacemakerSettings :=
  { owner_username := "test", mode := "VVI",
    lower_rate_limit := 60, upper_rate_limit := 120,
    atrial_amplitude := 3.5, atrial_pulse_width := 0.4,
    ventricular_amplitude := 3.5, ventricular_pulse_width := 0.4,
    atrial_refractory_period := 250, ventricular_refractory_period := 320,
    recovery_time := 5, reaction_time := 30, response_factor := 8,
    activity_threshold := "Med", maximum_sensor_rate := 120 }

/-- C2 counterexample: the claimed byte list has 64 (= 320 mod 256) at
offset 9, but the code clamps the ventricular refractory period 320 to
255, so the encoded frame is not the claimed one. -/
theorem C2_scenario_counterexample :
    _encode_settings_to_frame c2Settings ≠
      [9, 4, 60, 120, 35, 0, 35, 0, 250, 64, 5, 30, 8, 3, 120] := by
  have haa : pyRound (c2Settings.atrial_amplitude * 10) = 35 := by
    have h : c2Settings.atrial_amplitude * 10 = ((35 : Int) : Rat) := by
      norm_num [c2Settings]
    rw [h, pyRound_intCast]
  have hva : pyRound (c2Settings.ventricular_amplitude * 10) = 35 := by
    have h : c2Settings.ventricular_amplitude * 10 = ((35 : Int) : Rat) := by
      norm_num [c2Settings]
    rw [h, pyRound_intCast]
  have hapw : pyRound c2Settings.atrial_pulse_width = 0 :=
    pyRound_eq_of_lt_half _ 0 (by norm_num [c2Settings])
      (by norm_num [c2Settings])
  have hvpw : pyRound c2Settings.ventricular_pulse_width = 0 :=
    pyRound_eq_of_lt_half _ 0 (by norm_num [c2Settings])
      (by norm_num [c2Settings])
  intro h
  simp only [_encode_settings_to_frame, haa, hva, hapw, hvpw] at h
  exact absurd h (by decide)

/-- C2 (amended) — the scenario record encodes to
`[SYNC, 4, 60, 120, 35, 0, 35, 0, 250, 255, 5, 30, 8, 3, 120]`: both
refractory periods clamp into `[0, 255]`, so offset 9 carries 255 (not
64); pulse widths 0.4 round to 0. -/
theorem C2_scenario_amended :
    _encode_settings_to_frame c2Settings =
      [9, 4, 60, 120, 35, 0, 35, 0, 250, 255, 5, 30, 8, 3, 120] := by
  have haa : pyRound (c2Settings.atrial_amplitude * 10) = 35 := by
    have h : c2Settings.atrial_amplitude * 10 = ((35 : Int) : Rat) := by
      norm_num [c2Settings]
    rw [h, pyRound_intCast]
  have hva : pyRound (c2Settings.ventricular_amplitude * 10) = 35 := by
    have h : c2Settings.ventricular_amplitude * 10 = ((35 : Int) : Rat) := by
      norm_num [c2Settings]
    rw [h, pyRound_intCast]
  have hapw : pyRound c2Settings.atrial_pulse_width = 0 :=
    pyRound_eq_of_lt_half _ 0 (by norm_num [c2Settings])
      (by norm_num [c2Settings])
  have hvpw : pyRound c2Settings.ventricular_pulse_width = 0 :=
    pyRound_eq_of_lt_half _ 0 (by norm_num [c2Settings])
      (by norm_num [c2Settings])
  simp only [_encode_settings_to_frame, haa, hva, hapw, hvpw]
  decide

/-- C1 — Round-trip near-identity: decoding the frame produced by
encoding a settings record whose 14 wire-subset fields are in range
(mode in the table, threshold in the table, integer fields in
`[0, 255]`, amplitudes non-negative multiples of 0.1 no greater than
25.5, pulse widths integers in `[0, 255]`, the wire-representable
values), with fallback mode `s.mode`, succeeds with no sync diagnostic
and returns a record equal to `s` on all 14 wire-subset fields, the two
amplitude fields agreeing at 0.1 V granularity. -/
theorem C1_roundtrip_near_identity (s : PacemakerSettings)
    (hmode : (MODE_MAP s.mode).isSome = true)
    (hact : (ACTIVITY_THRESH_MAP s.activity_threshold).isSome = true)
    (hlrl : 0 ≤ s.lower_rate_limit ∧ s.lower_rate_limit ≤ 255)
    (hurl : 0 ≤ s.upper_rate_limit ∧ s.upper_rate_limit ≤ 255)
    (hmsr : 0 ≤ s.maximum_sensor_rate ∧ s.maximum_sensor_rate ≤ 255)
    (harp : 0 ≤ s.atrial_refractory_period ∧ s.atrial_refractory_period ≤ 255)
    (hvrp : 0 ≤ s.ventricular_refractory_period ∧
      s.ventricular_refractory_period ≤ 255)
    (hrec : 0 ≤ s.recovery_time ∧ s.recovery_time ≤ 255)
    (hrea : 0 ≤ s.reaction_time ∧ s.reaction_time ≤ 255)
    (hrf : 0 ≤ s.response_factor ∧ s.response_factor ≤ 255)
    (haa : ∃ k : Nat, k ≤ 255 ∧ s.atrial_amplitude = (k : Rat) / 10)
    (hva : ∃ k : Nat, k ≤ 255 ∧ s.ventricular_amplitude = (k : Rat) / 10)
    (hapw : ∃ k : Nat, k ≤ 255 ∧ s.atrial_pulse_width = (k : Rat))
    (hvpw : ∃ k : Nat, k ≤ 255 ∧ s.ventricular_pulse_width = (k : Rat)) :
    ∃ d, _decode_frame_to_settings s.mode (_encode_settings_to_frame s) =
        Except.ok ([], d) ∧
      d.mode = s.mode ∧
      d.lower_rate_limit = s.lower_rate_limit ∧
      d.upper_rate_limit = s.upper_rate_limit ∧
      pyRound (d.atrial_amplitude * 10) = pyRound (s.atrial_amplitude * 10) ∧
      d.atrial_pulse_width = s.atrial_pulse_width ∧
      pyRound (d.ventricular_amplitude * 10) =
        pyRound (s.ventricular_amplitude * 10) ∧
      d.ventricular_pulse_width = s.ventricular_pulse_width ∧
      d.atrial_refractory_period = s.atrial_refractory_period ∧
      d.ventricular_refractory_period = s.ventricular_refractory_period ∧
      d.recovery_time = s.recovery_time ∧
      d.reaction_time = s.reaction_time ∧
      d.response_factor = s.response_factor ∧
      d.activity_threshold = s.activity_threshold ∧
      d.maximum_sensor_rate = s.maximum_sensor_rate := by
  obtain ⟨mc, hmc⟩ := Option.isSome_iff_exists.mp hmode
  obtain ⟨ac, hac⟩ := Option.isSome_iff_exists.mp hact
  obtain ⟨ka, hka, haa'⟩ := haa
  obtain ⟨kv, hkv, hva'⟩ := hva
  obtain ⟨pa, hpa, hapw'⟩ := hapw
  obtain ⟨pv, hpv, hvpw'⟩ := hvpw
  have hmr := MODE_MAP_range hmc
  have har := ACTIVITY_THRESH_MAP_range hac
  have hmb : (MODE_MAP s.mode).getD 0 % 256 = mc := by
    rw [hmc]; simp only [Option.getD_some]; omega
  have hab : pyClampByte ((ACTIVITY_THRESH_MAP s.activity_threshold).getD 3)
      % 256 = ac := by
    rw [hac]; simp only [Option.getD_some]
    rw [pyClampByte_eq_self har.1 (by omega)]; omega
  have haab : pyClampByte (pyRound (s.atrial_amplitude * 10)) % 256 =
      (ka : Int) := by
    rw [haa']
    have h10 : ((ka : Rat) / 10) * 10 = ((ka : Nat) : Rat) := by field_simp
    rw [h10, pyRound_natCast,
      pyClampByte_eq_self (Int.natCast_nonneg ka) (by exact_mod_cast hka)]
    omega
  have hvab : pyClampByte (pyRound (s.ventricular_amplitude * 10)) % 256 =
      (kv : Int) := by
    rw [hva']
    have h10 : ((kv : Rat) / 10) * 10 = ((kv : Nat) : Rat) := by field_simp
    rw [h10, pyRound_natCast,
      pyClampByte_eq_self (Int.natCast_nonneg kv) (by exact_mod_cast hkv)]
    omega
  have hapb : pyClampByte (pyRound s.atrial_pulse_width) % 256 =
      (pa : Int) := by
    rw [hapw', pyRound_natCast,
      pyClampByte_eq_self (Int.natCast_nonneg pa) (by exact_mod_cast hpa)]
    omega
  have hvpb : pyClampByte (pyRound s.ventricular_pulse_width) % 256 =
      (pv : Int) := by
    rw [hvpw', pyRound_natCast,
      pyClampByte_eq_self (Int.natCast_nonneg pv) (by exact_mod_cast hpv)]
    omega
  have hlb : pyClampByte s.lower_rate_limit % 256 = s.lower_rate_limit := by
    rw [pyClampByte_eq_self hlrl.1 hlrl.2]; omega
  have hub : pyClampByte s.upper_rate_limit % 256 = s.upper_rate_limit := by
    rw [pyClampByte_eq_self hurl.1 hurl.2]; omega
  have hmsb : pyClampByte s.maximum_sensor_rate % 256 =
      s.maximum_sensor_rate := by
    rw [pyClampByte_eq_self hmsr.1 hmsr.2]; omega
  have harb : pyClampByte s.atrial_refractory_period % 256 =
      s.atrial_refractory_period := by
    rw [pyClampByte_eq_self harp.1 harp.2]; omega
  have hvrb : pyClampByte s.ventricular_refractory_period % 256 =
      s.ventricular_refractory_period := by
    rw [pyClampByte_eq_self hvrp.1 hvrp.2]; omega
  have hrcb : pyClampByte s.recovery_time % 256 = s.recovery_time := by
    rw [pyClampByte_eq_self hrec.1 hrec.2]; omega
  have hrab : pyClampByte s.reaction_time % 256 = s.reaction_time := by
    rw [pyClampByte_eq_self hrea.1 hrea.2]; omega
  have hrfb : pyClampByte s.response_factor % 256 = s.response_factor := by
    rw [pyClampByte_eq_self hrf.1 hrf.2]; omega
  have henc : _encode_settings_to_frame s =
      [9, mc, s.lower_rate_limit, s.upper_rate_limit, (ka : Int), (pa : Int),
       (kv : Int), (pv : Int), s.atrial_refractory_period,
       s.ventricular_refractory_period, s.recovery_time, s.reaction_time,
       s.response_factor, ac, s.maximum_sensor_rate] := by
    simp only [_encode_settings_to_frame, hmb, hab, haab, hvab, hapb, hvpb,
      hlb, hub, hmsb, harb, hvrb, hrcb, hrab, hrfb]
    norm_num [SYNC_BYTE]
  rw [henc]
  unfold _decode_frame_to_settings
  rw [if_neg (by simp [PACKET_LEN])]
  simp only [List.getD_cons_zero, List.getD_cons_succ, SYNC_BYTE,
    MODE_MAP_INV_left hmc, ACTIVITY_THRESH_MAP_INV_left hac,
    Option.getD_some, ne_eq, not_true_eq_false, if_false,
    PacemakerSettings.default]
  refine ⟨_, rfl, rfl, rfl, rfl, ?_, ?_, ?_, ?_, rfl, rfl, rfl, rfl, rfl,
    rfl, rfl⟩
  · simp [haa', Int.cast_natCast]
  · simp [hapw', Int.cast_natCast]
  · simp [hva', Int.cast_natCast]
  · simp [hvpw', Int.cast_natCast]

/-- A wire-representable settings record: integer pulse widths, tabled
mode and threshold, integer fields in range. -/
def c1Settings : PacemakerSettings :=
  { owner_username := "w", mode := "AAIR",
    atrial_pulse_width := 1, ventricular_pulse_width := 2,
    ventricular_refractory_period := 200,
    activity_threshold := "High" }

/-- C1 witness: the round-trip conclusion evaluated at `c1Settings`. -/
theorem C1_roundtrip_near_identity_witness :
    ∃ d, _decode_frame_to_settings c1Settings.mode
        (_encode_settings_to_frame c1Settings) = Except.ok ([], d) ∧
      d.mode = c1Settings.mode ∧
      d.lower_rate_limit = c1Settings.lower_rate_limit ∧
      d.upper_rate_limit = c1Settings.upper_rate_limit ∧
      pyRound (d.atrial_amplitude * 10) =
        pyRound (c1Settings.atrial_amplitude * 10) ∧
      d.atrial_pulse_width = c1Settings.atrial_pulse_width ∧
      pyRound (d.ventricular_amplitude * 10) =
        pyRound (c1Settings.ventricular_amplitude * 10) ∧
      d.ventricular_pulse_width = c1Settings.ventricular_pulse_width ∧
      d.atrial_refractory_period = c1Settings.atrial_refractory_period ∧
      d.ventricular_refractory_period =
        c1Settings.ventricular_refractory_period ∧
      d.recovery_time = c1Settings.recovery_time ∧
      d.reaction_time = c1Settings.reaction_time ∧
      d.response_factor = c1Settings.response_factor ∧
      d.activity_threshold = c1Settings.activity_threshold ∧
      d.maximum_sensor_rate = c1Settings.maximum_sensor_rate :=
  C1_roundtrip_near_identity c1Settings
    (by decide) (by decide) (by decide) (by decide) (by decide) (by decide)
    (by decide) (by decide) (by decide) (by decide)
    ⟨35, by norm_num, by norm_num [c1Settings]⟩
    ⟨35, by norm_num, by norm_num [c1Settings]⟩
    ⟨1, by norm_num, by norm_num [c1Settings]⟩
    ⟨2, by norm_num, by norm_num [c1Settings]⟩

end Pacemaker
